import Mathlib

/-!
Verification development for the training-attendance check-in service
(`main.py`).  The shallow embedding below translates the pure parts of the
Python source: string normalization helpers, member/location lookup, the
`/scan` policy decision, the `/members/lookup` endpoint and the reporting
month arithmetic.  Timestamps are modelled as exact rationals (seconds since
the epoch); the Python code uses `datetime` differences converted to float
minutes, which agree with the rational model on every comparison appearing in
the claims.  The SQLite tables are modelled as in-memory lists; SQL queries
are translated to list operations that preserve the queries' semantics
(filter + order-by + limit-1 becomes a maximum scan, unique-key lookups
become `find?` over the list).
-/

namespace AttendanceApi

/-! ### Python string primitives (over `List Char`) -/

/-- Python `str.strip` whitespace set (space, tab, LF, VT, FF, CR). -/
def isPySpace (c : Char) : Bool :=
  c == ' ' || c == Char.ofNat 9 || c == Char.ofNat 10 ||
  c == Char.ofNat 11 || c == Char.ofNat 12 || c == Char.ofNat 13

/-- Remove leading and trailing characters satisfying `p` (Python `strip`). -/
def stripEnds (p : Char → Bool) (l : List Char) : List Char :=
  ((l.dropWhile p).reverse.dropWhile p).reverse

def pyStripWs (l : List Char) : List Char := stripEnds isPySpace l

def pyStripChar (c : Char) (l : List Char) : List Char :=
  stripEnds (fun x => x == c) l

/-- Split at the first occurrence of `c`: returns the part before and,
when `c` occurs, the part after. -/
def splitFirst (c : Char) : List Char → List Char × Option (List Char)
  | [] => ([], none)
  | x :: xs =>
    if x = c then ([], some xs)
    else
      let r := splitFirst c xs
      (x :: r.1, r.2)

/-- Python `str.split(c)`: split at every occurrence of `c`. -/
def splitAll (c : Char) : List Char → List (List Char)
  | [] => [[]]
  | x :: xs =>
    let r := splitAll c xs
    if x = c then [] :: r
    else
      match r with
      | [] => [[x]]
      | h :: t => (x :: h) :: t

/-- `l₁` is a leading segment of `l₂`. -/
def leadsWith : List Char → List Char → Bool
  | [], _ => true
  | _ :: _, [] => false
  | x :: xs, y :: ys => x == y && leadsWith xs ys

/-! ### Normalization helpers (`main.py` lines 67–131) -/

/-- `normalize_name`: `(s or "").strip()`. -/
def normalize_name (s : String) : String := ⟨pyStripWs s.data⟩

/-- ASCII lowering, as both Python `str.lower` and SQLite `LOWER` perform on
the ASCII names involved. -/
def lowerStr (s : String) : String := ⟨s.data.map Char.toLower⟩

/-- `normalize_phone`: `None`/empty → `None`; keep digits only; keep the last
10 digits when more remain; empty digit string → `None`. -/
def normalize_phone (s : Option String) : Option String :=
  match s with
  | none => none
  | some str =>
    if str.isEmpty then none
    else
      let digits := str.data.filter Char.isDigit
      let digits := if digits.length > 10 then digits.drop (digits.length - 10) else digits
      if digits.isEmpty then none else some ⟨digits⟩

/-- `parse_qs` restricted to what `normalize_qr_value` consumes: split the
query on `&`, keep `key=value` chunks with a non-empty value (Python's
default `keep_blank_values=False`); percent-decoding is not modelled (no
claim involves an encoded value). -/
def qsPairs (query : List Char) : List (List Char × List Char) :=
  (splitAll '&' query).filterMap (fun chunk =>
    match splitFirst '=' chunk with
    | (_, none) => none
    | (k, some v) => if v.isEmpty then none else some (k, v))

/-- First value listed for `key`, as `params[key][0]`. -/
def paramFirst (pairs : List (List Char × List Char)) (key : List Char) :
    Option (List Char) :=
  (pairs.find? (fun kv => kv.1 == key)).map (·.2)

/-- When the (lowered) input starts with `http://` or `https://`, the
characters after the scheme. -/
def schemeRest (l : List Char) : Option (List Char) :=
  let low := l.map Char.toLower
  if leadsWith "http://".data low then some (l.drop 7)
  else if leadsWith "https://".data low then some (l.drop 8)
  else none

/-- `normalize_qr_value`: strip whitespace and quotes; for URLs extract the
`qr`/`code`/`value` query parameter (in that priority order) or the final
path segment; otherwise return the stripped raw value.  URL splitting
follows `urlparse` for absolute http(s) URLs: fragment after `#`, query
after `?`, netloc up to the first `/`. -/
def normalize_qr_value (s : String) : String :=
  let raw := pyStripChar (Char.ofNat 39) (pyStripChar (Char.ofNat 34) (pyStripWs s.data))
  if raw.isEmpty then ⟨raw⟩
  else
    match schemeRest raw with
    | none => ⟨raw⟩
    | some rest =>
      let beforeFrag := (splitFirst '#' rest).1
      let np := splitFirst '?' beforeFrag
      let pairs := qsPairs (np.2.getD [])
      match paramFirst pairs "qr".data with
      | some v => ⟨pyStripWs v⟩
      | none =>
        match paramFirst pairs "code".data with
        | some v => ⟨pyStripWs v⟩
        | none =>
          match paramFirst pairs "value".data with
          | some v => ⟨pyStripWs v⟩
          | none =>
            let path := match (splitFirst '/' np.1).2 with
              | some p => '/' :: p
              | none => []
            let pstr := pyStripChar '/' path
            if pstr.isEmpty then ⟨raw⟩
            else ⟨(splitAll '/' pstr).getLastD []⟩

/-! ### Rate-limit constants and arithmetic (`main.py` lines 63–65, 127–131) -/

def IGNORE_MINUTES : ℕ := 15

def FACILITY_MINUTES : ℕ := 30

/-- Python `int()` truncation toward zero, applied to `ts.timestamp()`. -/
def truncQ (q : ℚ) : ℤ := if 0 ≤ q then ⌊q⌋ else ⌈q⌉

/-- Python `round(x, 2)` modelled with Mathlib `round` on exact rationals
(differences from binary-float banker's rounding arise only at exact
half-hundredths, which no claim involves). -/
def round2 (q : ℚ) : ℚ := (round (q * 100) : ℤ) / 100

/-- Calendar date as used by `months_since` (year, month, day). -/
structure Date where
  year : ℤ
  month : ℤ
  day : ℤ
deriving DecidableEq

/-- `months_since`: month difference, plus one when `end.day >= start.day`,
floored at zero. -/
def months_since (start stop : Date) : ℤ :=
  let months := (stop.year - start.year) * 12 + (stop.month - start.month)
  let months := if stop.day ≥ start.day then months + 1 else months
  max 0 months

/-- Month field of a member's summary row (`report_members_summary` lines
644–658): `months_since` of the parsed promotion start date when present,
`None` otherwise. -/
def reportMonths (start : Option Date) (now : Date) : Option ℤ :=
  match start with
  | some s => some (months_since s now)
  | none => none

/-! ### Data model (tables of `db.py`, request model of `main.py`) -/

structure Member where
  id : String
  first_name : String
  last_name : String
  phone : Option String
  active : ℤ
deriving DecidableEq

structure Facility where
  id : String
  name : String
  active : ℤ
deriving DecidableEq

structure Location where
  id : String
  facility_id : String
  name : String
  qr_value : String
deriving DecidableEq

structure Attendance where
  id : String
  user_id : String
  facility_id : String
  location_id : String
  check_in_time : ℚ
deriving DecidableEq

structure Db where
  members : List Member
  facilities : List Facility
  locations : List Location
  attendance : List Attendance
deriving DecidableEq

structure ScanRequest where
  qr_value : String
  first_name : String
  last_name : String
  phone : Option String
  timestamp : Option ℚ
deriving DecidableEq

/-! ### Lookups -/

/-- The SQL name filter of `find_member_by_name`:
`LOWER(first_name) = LOWER(?) AND LOWER(last_name) = LOWER(?)`. -/
def nameRows (members : List Member) (first_name last_name : String) :
    List Member :=
  members.filter (fun m =>
    lowerStr m.first_name == lowerStr first_name &&
    lowerStr m.last_name == lowerStr last_name)

/-- `find_member_by_name` (lines 141–161): no name match → `None`; a truthy
phone selects the first name row whose normalized stored phone equals it
(`None` when none does, no fallback); otherwise the first name row. -/
def find_member_by_name (members : List Member)
    (first_name last_name : String) (phone : Option String) : Option Member :=
  let rows := nameRows members first_name last_name
  if rows.isEmpty then none
  else
    match phone with
    | some p =>
      if p.isEmpty then rows.head?
      else rows.find? (fun r => normalize_phone r.phone == some p)
    | none => rows.head?

/-- Result of `GET /members/lookup`. -/
inductive LookupResult where
  | invalid (reason : String)
  | valid (member : Member)
deriving DecidableEq

/-- `member_lookup` (lines 495–509). -/
def member_lookup (members : List Member)
    (first_name last_name : String) (phone : Option String) : LookupResult :=
  let fn := normalize_name first_name
  let ln := normalize_name last_name
  let ph := normalize_phone phone
  match find_member_by_name members fn ln ph with
  | none => .invalid "Not found"
  | some row => if row.active ≠ 1 then .invalid "Inactive" else .valid row

/-- Location lookup of `scan_qr` (lines 533–545): exact match on the raw
value first; when that fails and normalization produced a different
non-empty value, retry with the normalized value. -/
def resolveLocation (locs : List Location) (qr_raw : String) :
    Option Location :=
  let qr_norm := normalize_qr_value qr_raw
  match locs.find? (fun l => l.qr_value == qr_raw) with
  | some l => some l
  | none =>
    if ¬qr_norm.isEmpty ∧ qr_norm ≠ qr_raw then
      locs.find? (fun l => l.qr_value == qr_norm)
    else none

/-- Most recent attendance row for `(user_id, facility_id)`:
`ORDER BY check_in_time DESC LIMIT 1`. -/
def lastEvent (att : List Attendance) (uid fid : String) : Option Attendance :=
  (att.filter (fun a => a.user_id == uid && a.facility_id == fid)).foldl
    (fun acc a =>
      match acc with
      | none => some a
      | some b => if b.check_in_time < a.check_in_time then some a else acc)
    none

/-! ### The scan endpoint -/

/-- Body of a `/scan` response: the 400 errors raised by `HTTPException`,
and the `ignored` / `too_soon` / `ok` JSON bodies (fields that appear in a
claim are kept; purely decorative fields are carried verbatim where cheap). -/
inductive ScanResponse where
  | httpError (status : ℕ) (detail : String)
  | ignored (message member_id member_name facility_id : String)
      (minutes_since_last : ℚ) (timestamp : ℚ)
  | tooSoon (message member_id member_name facility_id : String)
      (minutes_since_last : ℚ) (timestamp : ℚ)
  | recorded (attendance_id member_id member_name facility_id
      facility_name location_id : String) (check_in_time : ℚ)
deriving DecidableEq

def ScanResponse.httpStatus : ScanResponse → ℕ
  | .httpError s _ => s
  | _ => 200

def ScanResponse.isIgnored : ScanResponse → Bool
  | .ignored .. => true
  | _ => false

def ScanResponse.isTooSoon : ScanResponse → Bool
  | .tooSoon .. => true
  | _ => false

def ScanResponse.isRecorded : ScanResponse → Bool
  | .recorded .. => true
  | _ => false

/-- The `minutes_since_last` field of the informational responses. -/
def ScanResponse.minutesField : ScanResponse → Option ℚ
  | .ignored _ _ _ _ m _ => some m
  | .tooSoon _ _ _ _ m _ => some m
  | _ => none

/-- The `attendance_id` of a recorded response. -/
def ScanResponse.attendanceId : ScanResponse → Option String
  | .recorded aid _ _ _ _ _ _ => some aid
  | _ => none

structure ScanResult where
  response : ScanResponse
  db : Db
deriving DecidableEq

/-- The member-validation failure message of `scan_qr` (lines 524–528),
raised both when no member matches and when the matched member is
inactive. -/
def memberValidationDetail : String :=
  "Name (and phone if used) must match membership database"

/-- `POST /scan` (`scan_qr`, lines 512–613).  `now` stands for
`datetime.utcnow()`; the effective timestamp is the payload override when
present.  Returns the response body and the resulting database (the
attendance insert of the success path is the only write). -/
def scan_qr (db : Db) (payload : ScanRequest) (now : ℚ) : ScanResult :=
  let ts := payload.timestamp.getD now
  let fn := normalize_name payload.first_name
  let ln := normalize_name payload.last_name
  let ph := normalize_phone payload.phone
  match find_member_by_name db.members fn ln ph with
  | none => ⟨.httpError 400 memberValidationDetail, db⟩
  | some member =>
    if member.active ≠ 1 then ⟨.httpError 400 memberValidationDetail, db⟩
    else
      match resolveLocation db.locations payload.qr_value with
      | none => ⟨.httpError 400 "QR code not recognized", db⟩
      | some loc =>
        let facility_id := loc.facility_id
        let location_id := loc.id
        let member_name := member.first_name ++ " " ++ member.last_name
        let insert : ScanResult :=
          let attendance_id := "ATT_" ++ toString (truncQ ts) ++ "_" ++ member.id
          let facility_name :=
            match db.facilities.find? (fun f => f.id == facility_id) with
            | some f => f.name
            | none => facility_id
          ⟨.recorded attendance_id member.id member_name facility_id
              facility_name location_id ts,
            { db with attendance :=
                db.attendance ++ [⟨attendance_id, member.id, facility_id, location_id, ts⟩] }⟩
        match lastEvent db.attendance member.id facility_id with
        | none => insert
        | some lastE =>
          let minutes := (ts - lastE.check_in_time) / 60
          if minutes < (IGNORE_MINUTES : ℚ) then
            ⟨.ignored ("Scan ignored (within " ++ toString IGNORE_MINUTES ++ " minutes).")
                member.id member_name facility_id (round2 minutes) ts, db⟩
          else if minutes < (FACILITY_MINUTES : ℚ) then
            ⟨.tooSoon ("Scan blocked (must wait " ++ toString FACILITY_MINUTES ++ " minutes between check-ins at a facility).")
                member.id member_name facility_id (round2 minutes) ts, db⟩
          else insert

/-! ### Sample directory data used by concrete witnesses -/

def mAda : Member := ⟨"MBR_1", "Ada", "Lovelace", some "5551234567", 1⟩

def inactiveIda : Member := ⟨"MBR_2", "Ida", "Gray", none, 0⟩

def facAlpha : Facility := ⟨"FAC_A", "Alpha", 1⟩

def facBeta : Facility := ⟨"FAC_B", "Beta", 1⟩

def locAlpha : Location := ⟨"LOC_A", "FAC_A", "Check-in", "QR_A"⟩

def locBeta : Location := ⟨"LOC_B", "FAC_B", "Check-in", "QR_B"⟩

/-- Directory with one active member, two facilities, no attendance yet. -/
def baseDb : Db := ⟨[mAda], [facAlpha, facBeta], [locAlpha, locBeta], []⟩

def scanAtA : ScanRequest := ⟨"QR_A", "Ada", "Lovelace", none, some 1000000000⟩

def scanAtB : ScanRequest := ⟨"QR_B", "Ada", "Lovelace", none, some 1000000000⟩

/-- Directory whose only member is inactive. -/
def dbInactive : Db := ⟨[inactiveIda], [facAlpha], [locAlpha], []⟩

def scanInactive : ScanRequest := ⟨"QR_A", "Ida", "Gray", none, some 0⟩

def scanUnknown : ScanRequest := ⟨"QR_A", "Uma", "Void", none, some 0⟩

/-! ### Branch lemmas for `scan_qr` -/

/-- With a resolved active member, resolved location, a prior event and a
delta inside the ignore window, the scan is ignored and nothing is
written. -/
theorem scan_qr_eq_ignored (db : Db) (p : ScanRequest) (now : ℚ)
    (m : Member) (loc : Location) (e : Attendance)
    (hm : find_member_by_name db.members (normalize_name p.first_name)
        (normalize_name p.last_name) (normalize_phone p.phone) = some m)
    (ha : m.active = 1)
    (hloc : resolveLocation db.locations p.qr_value = some loc)
    (hlast : lastEvent db.attendance m.id loc.facility_id = some e)
    (hw : (p.timestamp.getD now - e.check_in_time) / 60 < (IGNORE_MINUTES : ℚ)) :
    scan_qr db p now =
      ⟨.ignored ("Scan ignored (within " ++ toString IGNORE_MINUTES ++ " minutes).")
          m.id (m.first_name ++ " " ++ m.last_name) loc.facility_id
          (round2 ((p.timestamp.getD now - e.check_in_time) / 60))
          (p.timestamp.getD now), db⟩ := by
  simp [scan_qr, hm, ha, hloc, hlast, hw]

/-- Prior event with a delta past the ignore window but inside the block
window: the scan is blocked as too soon and nothing is written. -/
theorem scan_qr_eq_tooSoon (db : Db) (p : ScanRequest) (now : ℚ)
    (m : Member) (loc : Location) (e : Attendance)
    (hm : find_member_by_name db.members (normalize_name p.first_name)
        (normalize_name p.last_name) (normalize_phone p.phone) = some m)
    (ha : m.active = 1)
    (hloc : resolveLocation db.locations p.qr_value = some loc)
    (hlast : lastEvent db.attendance m.id loc.facility_id = some e)
    (h15 : ¬(p.timestamp.getD now - e.check_in_time) / 60 < (IGNORE_MINUTES : ℚ))
    (h30 : (p.timestamp.getD now - e.check_in_time) / 60 < (FACILITY_MINUTES : ℚ)) :
    scan_qr db p now =
      ⟨.tooSoon ("Scan blocked (must wait " ++ toString FACILITY_MINUTES ++ " minutes between check-ins at a facility).")
          m.id (m.first_name ++ " " ++ m.last_name) loc.facility_id
          (round2 ((p.timestamp.getD now - e.check_in_time) / 60))
          (p.timestamp.getD now), db⟩ := by
  simp [scan_qr, hm, ha, hloc, hlast, h15, h30]

/-- The attendance row inserted by a successful scan. -/
def insertedRow (m : Member) (loc : Location) (ts : ℚ) : Attendance :=
  ⟨"ATT_" ++ toString (truncQ ts) ++ "_" ++ m.id, m.id, loc.facility_id, loc.id, ts⟩

/-- The response returned by a successful scan. -/
def recordedResponse (db : Db) (m : Member) (loc : Location) (ts : ℚ) : ScanResponse :=
  .recorded ("ATT_" ++ toString (truncQ ts) ++ "_" ++ m.id)
    m.id (m.first_name ++ " " ++ m.last_name) loc.facility_id
    (match db.facilities.find? (fun f => f.id == loc.facility_id) with
      | some f => f.name
      | none => loc.facility_id)
    loc.id ts

/-- No prior event at the facility: the scan is recorded. -/
theorem scan_qr_eq_insert_of_no_last (db : Db) (p : ScanRequest) (now : ℚ)
    (m : Member) (loc : Location)
    (hm : find_member_by_name db.members (normalize_name p.first_name)
        (normalize_name p.last_name) (normalize_phone p.phone) = some m)
    (ha : m.active = 1)
    (hloc : resolveLocation db.locations p.qr_value = some loc)
    (hlast : lastEvent db.attendance m.id loc.facility_id = none) :
    scan_qr db p now =
      ⟨recordedResponse db m loc (p.timestamp.getD now),
        { db with attendance :=
            db.attendance ++ [insertedRow m loc (p.timestamp.getD now)] }⟩ := by
  simp [scan_qr, hm, ha, hloc, hlast, recordedResponse, insertedRow]

/-- Prior event past both windows: the scan is recorded. -/
theorem scan_qr_eq_insert_of_far (db : Db) (p : ScanRequest) (now : ℚ)
    (m : Member) (loc : Location) (e : Attendance)
    (hm : find_member_by_name db.members (normalize_name p.first_name)
        (normalize_name p.last_name) (normalize_phone p.phone) = some m)
    (ha : m.active = 1)
    (hloc : resolveLocation db.locations p.qr_value = some loc)
    (hlast : lastEvent db.attendance m.id loc.facility_id = some e)
    (h15 : ¬(p.timestamp.getD now - e.check_in_time) / 60 < (IGNORE_MINUTES : ℚ))
    (h30 : ¬(p.timestamp.getD now - e.check_in_time) / 60 < (FACILITY_MINUTES : ℚ)) :
    scan_qr db p now =
      ⟨recordedResponse db m loc (p.timestamp.getD now),
        { db with attendance :=
            db.attendance ++ [insertedRow m loc (p.timestamp.getD now)] }⟩ := by
  simp [scan_qr, hm, ha, hloc, hlast, h15, h30, recordedResponse, insertedRow]

/-- Appending an attendance row for a different facility does not change the
most recent event at a given facility. -/
theorem lastEvent_append_other (att : List Attendance) (a : Attendance)
    (uid fid : String) (hne : ¬(a.user_id == uid && a.facility_id == fid) = true) :
    lastEvent (att ++ [a]) uid fid = lastEvent att uid fid := by
  simp [lastEvent, List.filter_append, List.filter, hne]

/-! ### Claims -/

/-- C8: months elapsed since a promotion start date equals
`(now.year - start.year) * 12 + (now.month - start.month)`, plus one when
`now.day >= start.day`, floored at zero; `2024-01-15 → 2024-03-10` gives 2,
`2024-01-15 → 2024-03-20` gives 3; a missing start date reports a null
month count. -/
theorem C8_months_since_formula :
    (∀ s n : Date, months_since s n =
      max 0 ((n.year - s.year) * 12 + (n.month - s.month) +
        (if n.day ≥ s.day then 1 else 0))) ∧
    months_since ⟨2024, 1, 15⟩ ⟨2024, 3, 10⟩ = 2 ∧
    months_since ⟨2024, 1, 15⟩ ⟨2024, 3, 20⟩ = 3 ∧
    (∀ now : Date, reportMonths none now = none) := by
  refine ⟨?_, by decide, by decide, fun _ => rfl⟩
  intro s n
  simp only [months_since]
  by_cases h : n.day ≥ s.day <;> simp [h]

/-- C3 evidence: the reference identifier scheme
`ATT_{epoch-seconds}_{member_id}` collides when the same member is recorded
at two facilities within the same epoch second: both scans succeed and both
new attendance rows carry the identifier `ATT_1000000000_MBR_1`. -/
theorem C3_attendance_id_collision :
    (scan_qr baseDb scanAtA 0).response.attendanceId =
      some "ATT_1000000000_MBR_1" ∧
    (scan_qr (scan_qr baseDb scanAtA 0).db scanAtB 0).response.attendanceId =
      some "ATT_1000000000_MBR_1" ∧
    ((scan_qr (scan_qr baseDb scanAtA 0).db scanAtB 0).db.attendance.map (·.id)) =
      ["ATT_1000000000_MBR_1", "ATT_1000000000_MBR_1"] := by
  decide

/-- C2 counterexample: on the scan path an inactive member and an unknown
member produce the same 400 detail string, so the two cases do not produce
different user-facing messages there. -/
theorem C2_same_message_counterexample :
    (scan_qr dbInactive scanInactive 0).response =
      .httpError 400 memberValidationDetail ∧
    (scan_qr dbInactive scanUnknown 0).response =
      .httpError 400 memberValidationDetail := by
  decide

/-- C2 (amended): every scan attempt by a member that resolves with
`active ≠ 1` fails with the 400 member-validation error regardless of code
or timing, and writes nothing; the scan message is the same one used for
the not-found case, and only the lookup endpoint distinguishes the two
("Inactive" vs "Not found"). -/
theorem C2_inactive_scan (db : Db) (p : ScanRequest) (now : ℚ) (m : Member)
    (hm : find_member_by_name db.members (normalize_name p.first_name)
        (normalize_name p.last_name) (normalize_phone p.phone) = some m)
    (ha : m.active ≠ 1) :
    (scan_qr db p now).response = .httpError 400 memberValidationDetail ∧
    (scan_qr db p now).db = db ∧
    member_lookup db.members p.first_name p.last_name p.phone =
      .invalid "Inactive" ∧
    LookupResult.invalid "Inactive" ≠ LookupResult.invalid "Not found" := by
  have hne : ¬m.active = 1 := ha
  refine ⟨?_, ?_, ?_, by decide⟩ <;> simp [scan_qr, member_lookup, hm, hne]

/-- C1: with a resolved active member, location and a prior event at `t0`,
the outcome is decided by strict less-than windows on
`minutes_since_last = (effective_timestamp - t0) / 60`: below 15 minutes the
scan is ignored; from exactly 15 up to (excluding) 30 it is too soon (not
ignored); from exactly 30 on it is recorded (not blocked). -/
theorem C1_strict_window_boundaries (db : Db) (p : ScanRequest) (now : ℚ)
    (m : Member) (loc : Location) (e : Attendance)
    (hm : find_member_by_name db.members (normalize_name p.first_name)
        (normalize_name p.last_name) (normalize_phone p.phone) = some m)
    (ha : m.active = 1)
    (hloc : resolveLocation db.locations p.qr_value = some loc)
    (hlast : lastEvent db.attendance m.id loc.facility_id = some e) :
    ((p.timestamp.getD now - e.check_in_time) / 60 < 15 →
      (scan_qr db p now).response.isIgnored = true) ∧
    (15 ≤ (p.timestamp.getD now - e.check_in_time) / 60 →
      (p.timestamp.getD now - e.check_in_time) / 60 < 30 →
      (scan_qr db p now).response.isTooSoon = true ∧
      (scan_qr db p now).response.isIgnored = false) ∧
    (30 ≤ (p.timestamp.getD now - e.check_in_time) / 60 →
      (scan_qr db p now).response.isRecorded = true ∧
      (scan_qr db p now).response.isTooSoon = false ∧
      (scan_qr db p now).response.isIgnored = false) := by
  have c15 : (IGNORE_MINUTES : ℚ) = 15 := by norm_num [IGNORE_MINUTES]
  have c30 : (FACILITY_MINUTES : ℚ) = 30 := by norm_num [FACILITY_MINUTES]
  refine ⟨fun hw => ?_, fun hw1 hw2 => ?_, fun hw => ?_⟩
  · rw [scan_qr_eq_ignored db p now m loc e hm ha hloc hlast (by rw [c15]; exact hw)]
    rfl
  · rw [scan_qr_eq_tooSoon db p now m loc e hm ha hloc hlast
      (by rw [c15]; exact not_lt.mpr hw1) (by rw [c30]; exact hw2)]
    exact ⟨rfl, rfl⟩
  · rw [scan_qr_eq_insert_of_far db p now m loc e hm ha hloc hlast
      (by rw [c15]; exact not_lt.mpr (by linarith)) (by rw [c30]; exact not_lt.mpr hw)]
    exact ⟨rfl, rfl, rfl⟩

/-- Prior event at `t0 = 0` for the sample member at facility A. -/
def priorRow : Attendance := ⟨"ATT_0_MBR_1", "MBR_1", "FAC_A", "LOC_A", 0⟩

/-- `baseDb` with one prior attendance event at time 0. -/
def dbPrior : Db := ⟨[mAda], [facAlpha, facBeta], [locAlpha, locBeta], [priorRow]⟩

def scanAt900 : ScanRequest := ⟨"QR_A", "Ada", "Lovelace", none, some 900⟩

/-- Witness for `C1_strict_window_boundaries`: a scan exactly 15.00 minutes
after the prior event is too soon and not ignored. -/
theorem C1_strict_window_boundaries_witness :
    (scan_qr dbPrior scanAt900 0).response.isTooSoon = true ∧
    (scan_qr dbPrior scanAt900 0).response.isIgnored = false :=
  (C1_strict_window_boundaries dbPrior scanAt900 0 mAda locAlpha priorRow
    (by decide) (by decide) (by decide) (by decide)).2.1
    (by norm_num [scanAt900, priorRow]) (by norm_num [scanAt900, priorRow])

/-- C4: the rate limit is scoped per (member, facility) pair: after a
recorded scan at facility A, an immediate scan by the same member at
facility B (no prior event for that member at B's facility) is also
recorded, because `minutes_since_last` is computed only against the most
recent prior event at the same facility. -/
theorem C4_rate_limit_per_facility (db : Db) (p : ScanRequest) (now : ℚ)
    (qrB : String) (m : Member) (locA locB : Location)
    (hm : find_member_by_name db.members (normalize_name p.first_name)
        (normalize_name p.last_name) (normalize_phone p.phone) = some m)
    (ha : m.active = 1)
    (hA : resolveLocation db.locations p.qr_value = some locA)
    (hB : resolveLocation db.locations qrB = some locB)
    (hfac : locB.facility_id ≠ locA.facility_id)
    (hnoA : lastEvent db.attendance m.id locA.facility_id = none)
    (hnoB : lastEvent db.attendance m.id locB.facility_id = none) :
    (scan_qr db p now).response.isRecorded = true ∧
    (scan_qr (scan_qr db p now).db { p with qr_value := qrB } now).response.isRecorded
      = true := by
  rw [scan_qr_eq_insert_of_no_last db p now m locA hm ha hA hnoA]
  refine ⟨rfl, ?_⟩
  dsimp only
  have hlast1 : lastEvent
      (db.attendance ++ [insertedRow m locA (p.timestamp.getD now)]) m.id
      locB.facility_id = none := by
    rw [lastEvent_append_other]
    · exact hnoB
    · simp [insertedRow, Ne.symm hfac]
  rw [scan_qr_eq_insert_of_no_last
      { db with attendance := db.attendance ++ [insertedRow m locA (p.timestamp.getD now)] }
      { p with qr_value := qrB } now m locB hm ha hB hlast1]
  rfl

/-- Witness for `C4_rate_limit_per_facility`: the sample member's scans at
facilities A and B at the same instant are both recorded. -/
theorem C4_rate_limit_per_facility_witness :
    (scan_qr baseDb scanAtA 0).response.isRecorded = true ∧
    (scan_qr (scan_qr baseDb scanAtA 0).db
      { scanAtA with qr_value := "QR_B" } 0).response.isRecorded = true :=
  C4_rate_limit_per_facility baseDb scanAtA 0 "QR_B" mAda locAlpha locBeta
    (by decide) (by decide) (by decide) (by decide) (by decide) (by decide)
    (by decide)

/-- C5: when the delta is inside the 30-minute window the request writes
nothing, answers with HTTP 200, reports the minute delta rounded to two
decimals, and the outcome is ignored or too soon. -/
theorem C5_informational_no_write (db : Db) (p : ScanRequest) (now : ℚ)
    (m : Member) (loc : Location) (e : Attendance)
    (hm : find_member_by_name db.members (normalize_name p.first_name)
        (normalize_name p.last_name) (normalize_phone p.phone) = some m)
    (ha : m.active = 1)
    (hloc : resolveLocation db.locations p.qr_value = some loc)
    (hlast : lastEvent db.attendance m.id loc.facility_id = some e)
    (hw : (p.timestamp.getD now - e.check_in_time) / 60 < 30) :
    (scan_qr db p now).db = db ∧
    (scan_qr db p now).response.httpStatus = 200 ∧
    (scan_qr db p now).response.minutesField =
      some (round2 ((p.timestamp.getD now - e.check_in_time) / 60)) ∧
    ((scan_qr db p now).response.isIgnored = true ∨
      (scan_qr db p now).response.isTooSoon = true) := by
  have c30 : (FACILITY_MINUTES : ℚ) = 30 := by norm_num [FACILITY_MINUTES]
  by_cases h : (p.timestamp.getD now - e.check_in_time) / 60 < (IGNORE_MINUTES : ℚ)
  · rw [scan_qr_eq_ignored db p now m loc e hm ha hloc hlast h]
    exact ⟨rfl, rfl, rfl, Or.inl rfl⟩
  · rw [scan_qr_eq_tooSoon db p now m loc e hm ha hloc hlast h
      (by rw [c30]; exact hw)]
    exact ⟨rfl, rfl, rfl, Or.inr rfl⟩

def scanAt600 : ScanRequest := ⟨"QR_A", "Ada", "Lovelace", none, some 600⟩

/-- Witness for `C5_informational_no_write`: a scan 10 minutes after the
prior event leaves the ledger unchanged and answers 200 with delta 10. -/
theorem C5_informational_no_write_witness :
    (scan_qr dbPrior scanAt600 0).db = dbPrior ∧
    (scan_qr dbPrior scanAt600 0).response.httpStatus = 200 ∧
    (scan_qr dbPrior scanAt600 0).response.minutesField =
      some (round2 ((scanAt600.timestamp.getD 0 - priorRow.check_in_time) / 60)) ∧
    ((scan_qr dbPrior scanAt600 0).response.isIgnored = true ∨
      (scan_qr dbPrior scanAt600 0).response.isTooSoon = true) :=
  C5_informational_no_write dbPrior scanAt600 0 mAda locAlpha priorRow
    (by decide) (by decide) (by decide) (by decide)
    (by norm_num [scanAt600, priorRow])

/-- C9: a scan whose effective timestamp lies strictly before the most
recent recorded check-in at that facility has a negative minute delta, is
therefore always ignored, and writes nothing. -/
theorem C9_backdated_scan_ignored (db : Db) (p : ScanRequest) (now : ℚ)
    (m : Member) (loc : Location) (e : Attendance)
    (hm : find_member_by_name db.members (normalize_name p.first_name)
        (normalize_name p.last_name) (normalize_phone p.phone) = some m)
    (ha : m.active = 1)
    (hloc : resolveLocation db.locations p.qr_value = some loc)
    (hlast : lastEvent db.attendance m.id loc.facility_id = some e)
    (hts : p.timestamp.getD now < e.check_in_time) :
    (p.timestamp.getD now - e.check_in_time) / 60 < 0 ∧
    (scan_qr db p now).response.isIgnored = true ∧
    (scan_qr db p now).db = db := by
  have hneg : (p.timestamp.getD now - e.check_in_time) / 60 < 0 :=
    div_neg_of_neg_of_pos (by linarith) (by norm_num)
  have hw : (p.timestamp.getD now - e.check_in_time) / 60 < (IGNORE_MINUTES : ℚ) := by
    have : (0 : ℚ) ≤ (IGNORE_MINUTES : ℚ) := by positivity
    linarith
  rw [scan_qr_eq_ignored db p now m loc e hm ha hloc hlast hw]
  exact ⟨hneg, rfl, rfl⟩

def scanBackdated : ScanRequest := ⟨"QR_A", "Ada", "Lovelace", none, some (-3600)⟩

/-- Witness for `C9_backdated_scan_ignored`: a scan backdated one hour
before the prior event is ignored and writes nothing. -/
theorem C9_backdated_scan_ignored_witness :
    (scanBackdated.timestamp.getD 0 - priorRow.check_in_time) / 60 < 0 ∧
    (scan_qr dbPrior scanBackdated 0).response.isIgnored = true ∧
    (scan_qr dbPrior scanBackdated 0).db = dbPrior :=
  C9_backdated_scan_ignored dbPrior scanBackdated 0 mAda locAlpha priorRow
    (by decide) (by decide) (by decide) (by decide) (by decide)

/-- C10: member validation runs before scan-code resolution: when the member
is unknown or inactive and the QR code is unrecognized, the response is the
member-validation failure, never the code-not-recognized one. -/
theorem C10_member_check_before_code (db : Db) (p : ScanRequest) (now : ℚ)
    (hmem : find_member_by_name db.members (normalize_name p.first_name)
        (normalize_name p.last_name) (normalize_phone p.phone) = none ∨
      ∃ m, find_member_by_name db.members (normalize_name p.first_name)
        (normalize_name p.last_name) (normalize_phone p.phone) = some m ∧
        m.active ≠ 1)
    (_hqr : resolveLocation db.locations p.qr_value = none) :
    (scan_qr db p now).response = .httpError 400 memberValidationDetail ∧
    (scan_qr db p now).response ≠ .httpError 400 "QR code not recognized" := by
  have hresp : (scan_qr db p now).response = .httpError 400 memberValidationDetail := by
    rcases hmem with h | ⟨m, hsome, hact⟩
    · simp [scan_qr, h]
    · have hne : ¬m.active = 1 := hact
      simp [scan_qr, hsome, hne]
  refine ⟨hresp, ?_⟩
  rw [hresp]
  decide

def scanUnknownBadQr : ScanRequest := ⟨"NOPE", "Uma", "Void", none, some 0⟩

/-- Witness for `C10_member_check_before_code`: unknown member plus an
unrecognized code yields the member-validation error. -/
theorem C10_member_check_before_code_witness :
    (scan_qr dbInactive scanUnknownBadQr 0).response =
      .httpError 400 memberValidationDetail ∧
    (scan_qr dbInactive scanUnknownBadQr 0).response ≠
      .httpError 400 "QR code not recognized" :=
  C10_member_check_before_code dbInactive scanUnknownBadQr 0
    (Or.inl (by decide)) (by decide)

/-- C6: with a provided (normalized) phone and at least one case-insensitive
name match, the lookup returns only a name-matching member whose stored
phone normalizes to the provided phone, and returns nothing (no unfiltered
fallback) when no name-matching member's normalized phone matches. -/
theorem C6_phone_disambiguation (members : List Member) (fn ln p : String)
    (hp : p.isEmpty = false)
    (hrows : nameRows members fn ln ≠ []) :
    (∀ m, find_member_by_name members fn ln (some p) = some m →
      m ∈ nameRows members fn ln ∧ normalize_phone m.phone = some p) ∧
    ((∀ m ∈ nameRows members fn ln, ¬normalize_phone m.phone = some p) →
      find_member_by_name members fn ln (some p) = none) := by
  have hne : (nameRows members fn ln).isEmpty = false := by
    simpa [List.isEmpty_iff] using hrows
  constructor
  · intro m hm
    simp only [find_member_by_name, hne, Bool.false_eq_true, if_false, hp] at hm
    exact ⟨List.mem_of_find?_eq_some hm,
      by simpa [beq_iff_eq] using List.find?_some hm⟩
  · intro hnone
    simp only [find_member_by_name, hne, Bool.false_eq_true, if_false, hp]
    rw [List.find?_eq_none]
    intro x hx
    simpa [beq_iff_eq] using hnone x hx

def janeOne : Member := ⟨"MBR_A", "Jane", "Doe", some "111-222-3333", 1⟩

def janeTwo : Member := ⟨"MBR_B", "Jane", "Doe", some "444-555-6666", 1⟩

/-- Witness for `C6_phone_disambiguation` on two members sharing a name:
the phone `444-555-6666` selects the second Jane Doe. -/
theorem C6_phone_disambiguation_witness :
    janeTwo ∈ nameRows [janeOne, janeTwo] "Jane" "Doe" ∧
    normalize_phone janeTwo.phone = some "4445556666" :=
  (C6_phone_disambiguation [janeOne, janeTwo] "Jane" "Doe" "4445556666"
    (by decide) (by decide)).1 janeTwo (by decide)

/-- C7: a stored code is found from the bare value and from a URL carrying
it as the `code` query parameter; an input matching no stored code, raw or
normalized, resolves to nothing, and the scan then fails with the
code-not-recognized error. -/
theorem C7_qr_resolution (locs : List Location) (l : Location)
    (hA : locs.find? (fun x => x.qr_value == "ABC123") = some l)
    (hU : locs.find? (fun x => x.qr_value == "https://x/y?code=ABC123") = none) :
    resolveLocation locs "ABC123" = some l ∧
    resolveLocation locs "https://x/y?code=ABC123" = some l ∧
    (∀ s, locs.find? (fun x => x.qr_value == s) = none →
      locs.find? (fun x => x.qr_value == normalize_qr_value s) = none →
      resolveLocation locs s = none) ∧
    (∀ (db : Db) (p : ScanRequest) (now : ℚ) (m : Member),
      find_member_by_name db.members (normalize_name p.first_name)
        (normalize_name p.last_name) (normalize_phone p.phone) = some m →
      m.active = 1 →
      resolveLocation db.locations p.qr_value = none →
      (scan_qr db p now).response = .httpError 400 "QR code not recognized") := by
  have hnorm : normalize_qr_value "https://x/y?code=ABC123" = "ABC123" := by decide
  refine ⟨by simp [resolveLocation, hA], ?_, ?_, ?_⟩
  · simp only [resolveLocation, hnorm, hU]
    rw [if_pos (by decide)]
    exact hA
  · intro s h1 h2
    simp only [resolveLocation, h1]
    split
    · exact h2
    · rfl
  · intro db p now m hm ha hr
    simp [scan_qr, hm, ha, hr]

def locAbc : Location := ⟨"LOC_ABC", "FAC_A", "Door", "ABC123"⟩

/-- Directory holding only the `ABC123` location. -/
def dbAbc : Db := ⟨[mAda], [facAlpha], [locAbc], []⟩

def scanNope : ScanRequest := ⟨"NOPE", "Ada", "Lovelace", none, some 0⟩

/-- Witness for `C7_qr_resolution` over a one-location directory: bare code
and URL resolve to the location, an unknown code resolves to nothing, and a
scan with it fails with the code-not-recognized error. -/
theorem C7_qr_resolution_witness :
    resolveLocation [locAbc] "ABC123" = some locAbc ∧
    resolveLocation [locAbc] "https://x/y?code=ABC123" = some locAbc ∧
    resolveLocation [locAbc] "NOPE" = none ∧
    (scan_qr dbAbc scanNope 0).response =
      .httpError 400 "QR code not recognized" := by
  have h := C7_qr_resolution [locAbc] locAbc (by decide) (by decide)
  exact ⟨h.1, h.2.1, h.2.2.1 "NOPE" (by decide) (by decide),
    h.2.2.2 dbAbc scanNope 0 mAda (by decide) (by decide) (by decide)⟩

/-- Witness for `C2_inactive_scan` at the concrete inactive member. -/
theorem C2_inactive_scan_witness :
    (scan_qr dbInactive scanInactive 0).response =
      .httpError 400 memberValidationDetail ∧
    (scan_qr dbInactive scanInactive 0).db = dbInactive ∧
    member_lookup dbInactive.members scanInactive.first_name
      scanInactive.last_name scanInactive.phone = .invalid "Inactive" ∧
    LookupResult.invalid "Inactive" ≠ LookupResult.invalid "Not found" :=
  C2_inactive_scan dbInactive scanInactive 0 inactiveIda (by decide) (by decide)

end AttendanceApi
